import Mathlib

/-!
# SchoolScheduler.Engine: the C ABI lifecycle wrapper

Shallow embedding of `src/SchoolScheduler.Engine/EngineAPI.cpp`.

The translation unit owns two file-scope variables, `g_lastError` (a
`std::string`) and `g_initialized` (a `bool`), and exports four functions that
read and write them.  The two variables become the fields of `EngineState`
and every exported function becomes a function that takes the state before
the call and gives back the C return value together with the state after it.

Both `try` blocks are kept: a block is a computation that either completes
with the function result or throws a `std::exception` carrying its `what()`
text, and the `catch` handler is applied to whatever was thrown.  The blocks
of the source hold two assignments and a `return`, none of which throws in
this model (memory exhaustion inside `std::string` is outside of it), so the
handlers are present and never taken.
-/

set_option linter.unusedVariables false

namespace SchoolScheduler

/-- The file-scope variables of `EngineAPI.cpp` (lines 5-6). -/
structure EngineState where
  g_lastError : String
  g_initialized : Bool
  deriving DecidableEq, Repr

/-- State at program start-up: `static std::string g_lastError;` is default
constructed (empty) and `static bool g_initialized = false;`. -/
def startup : EngineState :=
  { g_lastError := "", g_initialized := false }

/-- Outcome of a `try` block: it ran to its `return`, or a `std::exception`
with the given `what()` text escaped from it.  Either way the globals are in
the state the block left them in. -/
inductive TryResult (α : Type) where
  | returned (value : α) (s : EngineState)
  | thrown (what : String) (s : EngineState)

/-- Function `Engine_Initialize(const char* configPath)`, lines 10-22.  A null
`configPath` is `none`. -/
def Engine_Initialize (configPath : Option String) (s : EngineState) :
    Bool × EngineState :=
  let body : TryResult Bool :=
    -- g_initialized = true;
    let s1 := { s with g_initialized := true }
    -- g_lastError = "Engine initialized successfully";
    let s2 := { s1 with g_lastError := "Engine initialized successfully" }
    -- return true;
    TryResult.returned true s2
  match body with
  | TryResult.returned value s2 => (value, s2)
  | TryResult.thrown what s2 =>
    -- catch: g_lastError = e.what(); return false;
    (false, { s2 with g_lastError := what })

/-- Function `Engine_GenerateSchedule()`, lines 24-41. -/
def Engine_GenerateSchedule (s : EngineState) : Bool × EngineState :=
  if !s.g_initialized then
    -- g_lastError = "Engine not initialized"; return false;
    (false, { s with g_lastError := "Engine not initialized" })
  else
    let body : TryResult Bool :=
      -- g_lastError = "Schedule generated successfully";
      let s1 := { s with g_lastError := "Schedule generated successfully" }
      -- return true;
      TryResult.returned true s1
    match body with
    | TryResult.returned value s1 => (value, s1)
    | TryResult.thrown what s1 =>
      -- catch: g_lastError = e.what(); return false;
      (false, { s1 with g_lastError := what })

/-- Function `Engine_GetLastError()`, lines 43-46: the text `g_lastError.c_str()`
points at when the call returns.  The call writes nothing. -/
def Engine_GetLastError (s : EngineState) : String :=
  s.g_lastError

/-- Function `Engine_Cleanup()`, lines 48-53. -/
def Engine_Cleanup (s : EngineState) : EngineState :=
  -- g_initialized = false;
  let s1 := { s with g_initialized := false }
  -- g_lastError.clear();
  { s1 with g_lastError := "" }

/-- One call of the exported API, with its argument. -/
inductive Call where
  | Initialize (configPath : Option String)
  | GenerateSchedule
  | GetLastError
  | Cleanup
  deriving DecidableEq, Repr

/-- What a call handed back to the caller: the `bool` of `Engine_Initialize`
and `Engine_GenerateSchedule`, the text of `Engine_GetLastError`, nothing for
`Engine_Cleanup`. -/
inductive Returned where
  | bool (b : Bool)
  | text (t : String)
  | void
  deriving DecidableEq, Repr

/-- Perform one call on the state `s`. -/
def perform (c : Call) (s : EngineState) : Returned × EngineState :=
  match c with
  | Call.Initialize configPath =>
    (Returned.bool (Engine_Initialize configPath s).1, (Engine_Initialize configPath s).2)
  | Call.GenerateSchedule =>
    (Returned.bool (Engine_GenerateSchedule s).1, (Engine_GenerateSchedule s).2)
  | Call.GetLastError => (Returned.text (Engine_GetLastError s), s)
  | Call.Cleanup => (Returned.void, Engine_Cleanup s)

/-- State after performing the calls of `calls` in order, starting in `s`. -/
def run (s : EngineState) (calls : List Call) : EngineState :=
  calls.foldl (fun st c => (perform c st).2) s

/-- A call failed when it returned `false`. -/
def failed (r : Returned) : Bool :=
  match r with
  | Returned.bool false => true
  | _ => false

/-- The last error left by the most recent failed call of `calls` (performed
in order from `s`), carried along from `acc`; `none` while no call failed. -/
def lastFailureFrom (acc : Option String) (s : EngineState) :
    List Call → Option String
  | [] => acc
  | c :: rest =>
    let r := perform c s
    lastFailureFrom (if failed r.1 then some r.2.g_lastError else acc) r.2 rest

/-- The message set by the most recent failed call of a call sequence run from
`s`, if any call of it failed. -/
def lastFailure (s : EngineState) (calls : List Call) : Option String :=
  lastFailureFrom none s calls

/-- The invariant of the reachable states: either the engine is not
initialized and `g_lastError` is empty or the not-initialized text, or it is
initialized and `g_lastError` is one of the two success texts. -/
def Consistent (s : EngineState) : Prop :=
  (s.g_initialized = false ∧
      (s.g_lastError = "" ∨ s.g_lastError = "Engine not initialized")) ∨
    (s.g_initialized = true ∧
      (s.g_lastError = "Engine initialized successfully" ∨
        s.g_lastError = "Schedule generated successfully"))

/-! ## Single calls -/

theorem initialize_eq (configPath : Option String) (s : EngineState) :
    Engine_Initialize configPath s =
      (true, { g_lastError := "Engine initialized successfully", g_initialized := true }) :=
  rfl

theorem generate_of_not_initialized (s : EngineState) (h : s.g_initialized = false) :
    Engine_GenerateSchedule s =
      (false, { g_lastError := "Engine not initialized", g_initialized := false }) := by
  cases s with
  | mk err ini =>
    cases h
    rfl

theorem generate_of_initialized (s : EngineState) (h : s.g_initialized = true) :
    Engine_GenerateSchedule s =
      (true, { g_lastError := "Schedule generated successfully", g_initialized := true }) := by
  cases s with
  | mk err ini =>
    cases h
    rfl

theorem cleanup_eq (s : EngineState) : Engine_Cleanup s = startup :=
  rfl

/-! ## Call sequences -/

theorem run_nil (s : EngineState) : run s [] = s :=
  rfl

theorem run_cons (s : EngineState) (c : Call) (rest : List Call) :
    run s (c :: rest) = run (perform c s).2 rest :=
  rfl

theorem run_append (s : EngineState) (xs ys : List Call) :
    run s (xs ++ ys) = run (run s xs) ys := by
  unfold run
  exact List.foldl_append _ _ _ _

theorem run_getLastError_only (s : EngineState) (post : List Call)
    (h : ∀ d ∈ post, d = Call.GetLastError) : run s post = s := by
  induction post with
  | nil => rfl
  | cons d rest ih =>
    have hd : d = Call.GetLastError := h d (List.mem_cons_self _ _)
    subst hd
    rw [run_cons]
    exact ih (fun e he => h e (List.mem_cons_of_mem _ he))

theorem lastFailureFrom_append (acc : Option String) (s : EngineState)
    (xs ys : List Call) :
    lastFailureFrom acc s (xs ++ ys) =
      lastFailureFrom (lastFailureFrom acc s xs) (run s xs) ys := by
  induction xs generalizing acc s with
  | nil => rfl
  | cons c rest ih =>
    simp only [List.cons_append, lastFailureFrom, run_cons]
    exact ih _ _

theorem lastFailureFrom_getLastError_only (acc : Option String) (s : EngineState)
    (post : List Call) (h : ∀ d ∈ post, d = Call.GetLastError) :
    lastFailureFrom acc s post = acc := by
  induction post generalizing acc s with
  | nil => rfl
  | cons d rest ih =>
    have hd : d = Call.GetLastError := h d (List.mem_cons_self _ _)
    subst hd
    simp only [lastFailureFrom, perform, failed]
    exact ih _ _ (fun e he => h e (List.mem_cons_of_mem _ he))

theorem failed_perform (c : Call) (s : EngineState) (h : failed (perform c s).1 = true) :
    c = Call.GenerateSchedule ∧ s.g_initialized = false := by
  cases c with
  | Initialize configPath => simp [perform, failed, initialize_eq] at h
  | GenerateSchedule =>
    refine ⟨rfl, ?_⟩
    cases hi : s.g_initialized with
    | false => rfl
    | true => simp [perform, failed, generate_of_initialized s hi] at h
  | GetLastError => simp [perform, failed] at h
  | Cleanup => simp [perform, failed] at h

theorem consistent_startup : Consistent startup :=
  Or.inl ⟨rfl, Or.inl rfl⟩

theorem consistent_perform (c : Call) (s : EngineState) (h : Consistent s) :
    Consistent (perform c s).2 := by
  cases c with
  | Initialize configPath => exact Or.inr ⟨rfl, Or.inl rfl⟩
  | GenerateSchedule =>
    cases hi : s.g_initialized with
    | false =>
      simp only [perform, generate_of_not_initialized s hi]
      exact Or.inl ⟨rfl, Or.inr rfl⟩
    | true =>
      simp only [perform, generate_of_initialized s hi]
      exact Or.inr ⟨rfl, Or.inr rfl⟩
  | GetLastError => exact h
  | Cleanup => exact Or.inl ⟨rfl, Or.inl rfl⟩

theorem consistent_run (s : EngineState) (calls : List Call) (h : Consistent s) :
    Consistent (run s calls) := by
  induction calls generalizing s with
  | nil => exact h
  | cons c rest ih => exact ih _ (consistent_perform c s h)

theorem perform_initialized (c : Call) (s : EngineState) :
    (perform c s).2.g_initialized =
      match c with
      | Call.Initialize _ => true
      | Call.Cleanup => false
      | _ => s.g_initialized := by
  cases c with
  | Initialize configPath => rfl
  | GenerateSchedule =>
    cases hi : s.g_initialized with
    | false => simp only [perform, generate_of_not_initialized s hi]
    | true => simp only [perform, generate_of_initialized s hi]
  | GetLastError => rfl
  | Cleanup => rfl

/-- After a call sequence the engine is initialized exactly when it was
initialized before and no `Engine_Cleanup` was called, or some
`Engine_Initialize` of the sequence has no `Engine_Cleanup` after it. -/
theorem initialized_run_iff (s : EngineState) (calls : List Call) :
    (run s calls).g_initialized = true ↔
      (s.g_initialized = true ∧ Call.Cleanup ∉ calls) ∨
        ∃ pre configPath post,
          calls = pre ++ Call.Initialize configPath :: post ∧ Call.Cleanup ∉ post := by
  induction calls generalizing s with
  | nil => simp [run_nil]
  | cons c rest ih =>
    rw [run_cons, ih, perform_initialized]
    constructor
    · rintro (⟨h1, h2⟩ | ⟨pre, cfg, post, h1, h2⟩)
      · cases c with
        | Initialize configPath => exact Or.inr ⟨[], configPath, rest, rfl, h2⟩
        | GenerateSchedule => exact Or.inl ⟨h1, by simpa using h2⟩
        | GetLastError => exact Or.inl ⟨h1, by simpa using h2⟩
        | Cleanup => simp at h1
      · exact Or.inr ⟨c :: pre, cfg, post, by simp [h1], h2⟩
    · rintro (⟨h1, h2⟩ | ⟨pre, cfg, post, h1, h2⟩)
      · simp only [List.mem_cons, not_or] at h2
        cases c with
        | Initialize configPath => exact Or.inl ⟨rfl, h2.2⟩
        | GenerateSchedule => exact Or.inl ⟨h1, h2.2⟩
        | GetLastError => exact Or.inl ⟨h1, h2.2⟩
        | Cleanup => exact absurd rfl h2.1
      · cases pre with
        | nil =>
          simp only [List.nil_append, List.cons.injEq] at h1
          obtain ⟨hc, hr⟩ := h1
          subst hc hr
          exact Or.inl ⟨rfl, h2⟩
        | cons p pre2 =>
          simp only [List.cons_append, List.cons.injEq] at h1
          exact Or.inr ⟨pre2, cfg, post, h1.2, h2⟩

/-- Once a failure has been recorded, the recorded text stays "Engine not
initialized": a later failed call records that same text again. -/
theorem lastFailureFrom_not_initialized (s : EngineState) (calls : List Call) :
    lastFailureFrom (some "Engine not initialized") s calls =
      some "Engine not initialized" := by
  induction calls generalizing s with
  | nil => rfl
  | cons c rest ih =>
    simp only [lastFailureFrom]
    cases hf : failed (perform c s).1 with
    | false => simpa using ih _
    | true =>
      obtain ⟨hc, hi⟩ := failed_perform c s hf
      subst hc
      simp only [perform, generate_of_not_initialized s hi, if_true]
      exact ih _

/-- A sequence with a failed call in it records "Engine not initialized" as
the message of its most recent failed call. -/
theorem lastFailure_of_failed (s : EngineState) (pre post : List Call) (c : Call)
    (hfail : failed (perform c (run s pre)).1 = true) :
    lastFailure s (pre ++ c :: post) = some "Engine not initialized" := by
  obtain ⟨hc, hi⟩ := failed_perform c _ hfail
  subst hc
  unfold lastFailure
  rw [lastFailureFrom_append]
  simp only [lastFailureFrom, perform, generate_of_not_initialized _ hi, failed, if_true]
  exact lastFailureFrom_not_initialized _ _

/-- A failed call followed by reads only leaves its message in place. -/
theorem run_failed_then_reads (s : EngineState) (pre post : List Call) (c : Call)
    (hfail : failed (perform c (run s pre)).1 = true)
    (hpost : ∀ d ∈ post, d = Call.GetLastError) :
    run s (pre ++ c :: post) =
      { g_lastError := "Engine not initialized", g_initialized := false } := by
  obtain ⟨hc, hi⟩ := failed_perform c _ hfail
  subst hc
  rw [run_append, run_cons, run_getLastError_only _ post hpost]
  simp only [perform, generate_of_not_initialized _ hi]

/-- When a run ends with "Engine not initialized" in `g_lastError`, either the
text was there from the start and every call was a read, or some call failed
and every call after it was a read. -/
theorem not_initialized_text_origin (s : EngineState) (calls : List Call)
    (h : (run s calls).g_lastError = "Engine not initialized") :
    (s.g_lastError = "Engine not initialized" ∧ ∀ d ∈ calls, d = Call.GetLastError) ∨
      ∃ pre c post, calls = pre ++ c :: post ∧
        failed (perform c (run s pre)).1 = true ∧ ∀ d ∈ post, d = Call.GetLastError := by
  induction calls using List.reverseRecOn with
  | nil => exact Or.inl ⟨h, fun d hd => absurd hd (List.not_mem_nil d)⟩
  | append_singleton l c ih =>
    rw [run_append, run_cons, run_nil] at h
    cases c with
    | Initialize configPath =>
      simp only [perform, initialize_eq] at h
      exact absurd h (by decide)
    | GenerateSchedule =>
      cases hi : (run s l).g_initialized with
      | false =>
        refine Or.inr ⟨l, Call.GenerateSchedule, [], rfl, ?_,
          fun d hd => absurd hd (List.not_mem_nil d)⟩
        simp only [perform, generate_of_not_initialized _ hi, failed]
      | true =>
        simp only [perform, generate_of_initialized _ hi] at h
        exact absurd h (by decide)
    | GetLastError =>
      rcases ih h with ⟨h0, hall⟩ | ⟨pre, c, post, hl, hf, hall⟩
      · refine Or.inl ⟨h0, fun d hd => ?_⟩
        rcases List.mem_append.mp hd with hd | hd
        · exact hall d hd
        · exact List.mem_singleton.mp hd
      · refine Or.inr ⟨pre, c, post ++ [Call.GetLastError], ?_, hf, fun d hd => ?_⟩
        · rw [hl, List.append_assoc, List.cons_append]
        · rcases List.mem_append.mp hd with hd | hd
          · exact hall d hd
          · exact List.mem_singleton.mp hd
    | Cleanup =>
      simp only [perform, cleanup_eq] at h
      exact absurd h (by decide)

/-! ## The claims -/

/-- C1: in every state in which the engine is not initialized (never
initialized, or cleaned up), `Engine_GenerateSchedule` returns `false`, the
last error it leaves is "Engine not initialized", and the engine stays
uninitialized. -/
theorem generateSchedule_fails_when_uninitialized (s : EngineState)
    (h : s.g_initialized = false) :
    (Engine_GenerateSchedule s).1 = false ∧
      Engine_GetLastError (Engine_GenerateSchedule s).2 = "Engine not initialized" ∧
      (Engine_GenerateSchedule s).2.g_initialized = false := by
  rw [generate_of_not_initialized s h]
  exact ⟨rfl, rfl, rfl⟩

/-- Instance of C1 at a cleaned-up engine (initialized once, then cleaned up). -/
theorem generateSchedule_fails_when_uninitialized_witness :
    (Engine_Cleanup (Engine_Initialize none startup).2).g_initialized = false ∧
      (Engine_GenerateSchedule (Engine_Cleanup (Engine_Initialize none startup).2)).1 = false ∧
      Engine_GetLastError
          (Engine_GenerateSchedule (Engine_Cleanup (Engine_Initialize none startup).2)).2 =
        "Engine not initialized" ∧
      (Engine_GenerateSchedule
          (Engine_Cleanup (Engine_Initialize none startup).2)).2.g_initialized = false :=
  ⟨rfl, generateSchedule_fails_when_uninitialized
    (Engine_Cleanup (Engine_Initialize none startup).2) rfl⟩

/-- C2: from every state `Engine_Cleanup` leaves the initialized flag false
and the last error empty, which is exactly the start-up state, and an
`Engine_GenerateSchedule` called right after it returns `false`. -/
theorem cleanup_invalidates_engine (s : EngineState) :
    (Engine_Cleanup s).g_initialized = false ∧
      (Engine_Cleanup s).g_lastError = "" ∧
      Engine_Cleanup s = startup ∧
      (Engine_GenerateSchedule (Engine_Cleanup s)).1 = false :=
  ⟨rfl, rfl, rfl, rfl⟩

/-- C3: for each of `Engine_Initialize`, `Engine_GenerateSchedule` and
`Engine_Cleanup`, two states that agree on the initialized flag give the same
`Engine_GetLastError` text after the call, whatever last errors they held
before it. -/
theorem lastError_overwritten_by_each_call (s1 s2 : EngineState)
    (h : s1.g_initialized = s2.g_initialized) :
    (∀ configPath : Option String,
        Engine_GetLastError (Engine_Initialize configPath s1).2 =
          Engine_GetLastError (Engine_Initialize configPath s2).2) ∧
      Engine_GetLastError (Engine_GenerateSchedule s1).2 =
        Engine_GetLastError (Engine_GenerateSchedule s2).2 ∧
      Engine_GetLastError (Engine_Cleanup s1) = Engine_GetLastError (Engine_Cleanup s2) := by
  refine ⟨fun _ => rfl, ?_, rfl⟩
  cases hi : s2.g_initialized with
  | false =>
    rw [generate_of_not_initialized s2 hi, generate_of_not_initialized s1 (h.trans hi)]
  | true =>
    rw [generate_of_initialized s2 hi, generate_of_initialized s1 (h.trans hi)]

/-- Instance of C3 at two uninitialized states holding different last errors. -/
theorem lastError_overwritten_by_each_call_witness :
    ({ g_lastError := "Engine not initialized", g_initialized := false } : EngineState).g_lastError ≠
        ({ g_lastError := "", g_initialized := false } : EngineState).g_lastError ∧
      ((∀ configPath : Option String,
          Engine_GetLastError (Engine_Initialize configPath
              { g_lastError := "Engine not initialized", g_initialized := false }).2 =
            Engine_GetLastError (Engine_Initialize configPath
              { g_lastError := "", g_initialized := false }).2) ∧
        Engine_GetLastError (Engine_GenerateSchedule
            { g_lastError := "Engine not initialized", g_initialized := false }).2 =
          Engine_GetLastError (Engine_GenerateSchedule
            { g_lastError := "", g_initialized := false }).2 ∧
        Engine_GetLastError (Engine_Cleanup
            { g_lastError := "Engine not initialized", g_initialized := false }) =
          Engine_GetLastError (Engine_Cleanup
            { g_lastError := "", g_initialized := false })) :=
  ⟨by decide, lastError_overwritten_by_each_call
    { g_lastError := "Engine not initialized", g_initialized := false }
    { g_lastError := "", g_initialized := false } rfl⟩

/-- C4, as stated, fails: from start-up, `Engine_GenerateSchedule` fails and
sets "Engine not initialized", then `Engine_Initialize` succeeds; the most
recent failed call set "Engine not initialized", yet `Engine_GetLastError`
returns "Engine initialized successfully". -/
theorem lastError_after_later_success_counterexample :
    lastFailure startup [Call.GenerateSchedule, Call.Initialize none] =
        some "Engine not initialized" ∧
      Engine_GetLastError (run startup [Call.GenerateSchedule, Call.Initialize none]) =
        "Engine initialized successfully" ∧
      lastFailure startup [Call.GenerateSchedule, Call.Initialize none] ≠
        some (Engine_GetLastError (run startup [Call.GenerateSchedule, Call.Initialize none])) := by
  decide

/-- C4, amended: for every sequence of API calls from start-up in which at
least one call failed, the message set by the most recent failed call is
"Engine not initialized", and the text `Engine_GetLastError` returns at the
end is that message if and only if nothing but `Engine_GetLastError` calls
follows a failed call; otherwise the text returned is "Engine initialized
successfully", "Schedule generated successfully" or the empty string. -/
theorem lastError_is_last_failure_iff_only_reads_follow (calls : List Call)
    (hfailed : ∃ pre c post, calls = pre ++ c :: post ∧
      failed (perform c (run startup pre)).1 = true) :
    lastFailure startup calls = some "Engine not initialized" ∧
      (Engine_GetLastError (run startup calls) = "Engine not initialized" ↔
        ∃ pre c post, calls = pre ++ c :: post ∧
          failed (perform c (run startup pre)).1 = true ∧
          ∀ d ∈ post, d = Call.GetLastError) ∧
      (Engine_GetLastError (run startup calls) ≠ "Engine not initialized" →
        Engine_GetLastError (run startup calls) = "Engine initialized successfully" ∨
          Engine_GetLastError (run startup calls) = "Schedule generated successfully" ∨
          Engine_GetLastError (run startup calls) = "") := by
  refine ⟨?_, ⟨fun h => ?_, ?_⟩, fun hne => ?_⟩
  · obtain ⟨pre, c, post, hc, hf⟩ := hfailed
    rw [hc]
    exact lastFailure_of_failed startup pre post c hf
  · rcases not_initialized_text_origin startup calls h with ⟨h0, _⟩ | hex
    · exact absurd h0 (by decide)
    · exact hex
  · rintro ⟨pre, c, post, hc, hf, hall⟩
    rw [hc, run_failed_then_reads startup pre post c hf hall]
    rfl
  · rcases consistent_run startup calls consistent_startup with ⟨_, he | he⟩ | ⟨_, he | he⟩
    · exact Or.inr (Or.inr he)
    · exact absurd he hne
    · exact Or.inl he
    · exact Or.inr (Or.inl he)

/-- Instance of amended C4: initialize, clean up, a failing generate, then two
reads of the last error. -/
theorem lastError_is_last_failure_iff_only_reads_follow_witness :
    (∃ pre c post,
        [Call.Initialize none, Call.Cleanup, Call.GenerateSchedule, Call.GetLastError,
            Call.GetLastError] = pre ++ c :: post ∧
          failed (perform c (run startup pre)).1 = true) ∧
      lastFailure startup
          [Call.Initialize none, Call.Cleanup, Call.GenerateSchedule, Call.GetLastError,
            Call.GetLastError] = some "Engine not initialized" ∧
      Engine_GetLastError (run startup
          [Call.Initialize none, Call.Cleanup, Call.GenerateSchedule, Call.GetLastError,
            Call.GetLastError]) = "Engine not initialized" :=
  have hfailed : ∃ pre c post,
      [Call.Initialize none, Call.Cleanup, Call.GenerateSchedule, Call.GetLastError,
          Call.GetLastError] = pre ++ c :: post ∧
        failed (perform c (run startup pre)).1 = true :=
    ⟨[Call.Initialize none, Call.Cleanup], Call.GenerateSchedule,
      [Call.GetLastError, Call.GetLastError], rfl, by decide⟩
  have hall := lastError_is_last_failure_iff_only_reads_follow
    [Call.Initialize none, Call.Cleanup, Call.GenerateSchedule, Call.GetLastError,
      Call.GetLastError] hfailed
  ⟨hfailed, hall.1,
    hall.2.1.mpr ⟨[Call.Initialize none, Call.Cleanup], Call.GenerateSchedule,
      [Call.GetLastError, Call.GetLastError], rfl, by decide, by decide⟩⟩

/-- C5, as stated, fails: right after a successful `Engine_Initialize` from
start-up, with nothing loaded, `Engine_GenerateSchedule` returns `true` and
reports "Schedule generated successfully". -/
theorem generate_right_after_initialize_counterexample :
    (Engine_Initialize none startup).1 = true ∧
      (Engine_GenerateSchedule (Engine_Initialize none startup).2).1 = true ∧
      (Engine_GenerateSchedule (Engine_Initialize none startup).2).1 ≠ false ∧
      Engine_GetLastError (Engine_GenerateSchedule (Engine_Initialize none startup).2).2 =
        "Schedule generated successfully" := by
  decide

/-- C5, amended: in every state reached from start-up by API calls,
`Engine_GenerateSchedule` fails (returns `false`) exactly when no
`Engine_Initialize` has been called since start-up or since the last
`Engine_Cleanup`, and when it fails the last error is "Engine not
initialized". -/
theorem generate_fails_iff_no_initialize_since_cleanup (calls : List Call) :
    ((Engine_GenerateSchedule (run startup calls)).1 = false ↔
        ¬ ∃ pre configPath post,
          calls = pre ++ Call.Initialize configPath :: post ∧ Call.Cleanup ∉ post) ∧
      ((Engine_GenerateSchedule (run startup calls)).1 = false →
        Engine_GetLastError (Engine_GenerateSchedule (run startup calls)).2 =
          "Engine not initialized") := by
  have hiff := initialized_run_iff startup calls
  have hstart : startup.g_initialized = false := rfl
  simp only [hstart, Bool.false_eq_true, false_and, false_or] at hiff
  cases hi : (run startup calls).g_initialized with
  | false =>
    rw [generate_of_not_initialized _ hi]
    refine ⟨⟨fun _ hex => ?_, fun _ => rfl⟩, fun _ => rfl⟩
    rw [hiff.mpr hex] at hi
    exact Bool.noConfusion hi
  | true =>
    rw [generate_of_initialized _ hi]
    refine ⟨⟨fun h => Bool.noConfusion h, fun h => absurd (hiff.mp hi) h⟩,
      fun h => Bool.noConfusion h⟩

/-- Instance of amended C5: after initialize and cleanup the next generate
fails with "Engine not initialized". -/
theorem generate_fails_iff_no_initialize_since_cleanup_witness :
    (Engine_GenerateSchedule (run startup [Call.Initialize none, Call.Cleanup])).1 = false ∧
      Engine_GetLastError
          (Engine_GenerateSchedule (run startup [Call.Initialize none, Call.Cleanup])).2 =
        "Engine not initialized" :=
  ⟨by decide,
    (generate_fails_iff_no_initialize_since_cleanup
      [Call.Initialize none, Call.Cleanup]).2 (by decide)⟩

/-- C6: for every `configPath` and every two states the runs start from,
`Engine_Initialize` followed by `Engine_GenerateSchedule` gives the same two
return values, the same final initialized flag and the same final last
error. -/
theorem initialize_then_generate_deterministic (configPath : Option String)
    (s1 s2 : EngineState) :
    (Engine_Initialize configPath s1).1 = (Engine_Initialize configPath s2).1 ∧
      (Engine_GenerateSchedule (Engine_Initialize configPath s1).2).1 =
        (Engine_GenerateSchedule (Engine_Initialize configPath s2).2).1 ∧
      (Engine_GenerateSchedule (Engine_Initialize configPath s1).2).2.g_initialized =
        (Engine_GenerateSchedule (Engine_Initialize configPath s2).2).2.g_initialized ∧
      Engine_GetLastError (Engine_GenerateSchedule (Engine_Initialize configPath s1).2).2 =
        Engine_GetLastError (Engine_GenerateSchedule (Engine_Initialize configPath s2).2).2 :=
  ⟨rfl, rfl, rfl, rfl⟩

/-- C8: in every initialized state `Engine_GenerateSchedule` returns `true`,
leaves the last error "Schedule generated successfully" and leaves the
engine initialized; and in every state it returns `true` if and only if the
engine is initialized. -/
theorem generateSchedule_succeeds_iff_initialized (s : EngineState) :
    (s.g_initialized = true →
        (Engine_GenerateSchedule s).1 = true ∧
          Engine_GetLastError (Engine_GenerateSchedule s).2 =
            "Schedule generated successfully" ∧
          (Engine_GenerateSchedule s).2.g_initialized = true) ∧
      ((Engine_GenerateSchedule s).1 = true ↔ s.g_initialized = true) := by
  cases hi : s.g_initialized with
  | false =>
    rw [generate_of_not_initialized s hi]
    exact ⟨fun h => Bool.noConfusion h, Iff.rfl⟩
  | true =>
    rw [generate_of_initialized s hi]
    exact ⟨fun _ => ⟨rfl, rfl, rfl⟩, Iff.rfl⟩

/-- Instance of C8 at the state a first `Engine_Initialize` leaves. -/
theorem generateSchedule_succeeds_iff_initialized_witness :
    (Engine_Initialize none startup).2.g_initialized = true ∧
      (Engine_GenerateSchedule (Engine_Initialize none startup).2).1 = true ∧
      Engine_GetLastError (Engine_GenerateSchedule (Engine_Initialize none startup).2).2 =
        "Schedule generated successfully" ∧
      (Engine_GenerateSchedule (Engine_Initialize none startup).2).2.g_initialized = true :=
  ⟨rfl, (generateSchedule_succeeds_iff_initialized (Engine_Initialize none startup).2).1 rfl⟩

/-- C9: for every prior state and every `configPath`, null included,
`Engine_Initialize` returns `true` and leaves the engine initialized with
last error "Engine initialized successfully"; the argument has no effect, and
a second `Engine_Initialize` right after the first leaves the same state as
the first alone. -/
theorem initialize_never_fails (configPath configPath2 : Option String)
    (s : EngineState) :
    (Engine_Initialize configPath s).1 = true ∧
      (Engine_Initialize configPath s).2 =
        { g_lastError := "Engine initialized successfully", g_initialized := true } ∧
      Engine_Initialize configPath s = Engine_Initialize configPath2 s ∧
      Engine_Initialize none s = Engine_Initialize configPath s ∧
      (Engine_Initialize configPath2 (Engine_Initialize configPath s).2).2 =
        (Engine_Initialize configPath s).2 :=
  ⟨rfl, rfl, rfl, rfl, rfl⟩

/-- C10: in every state reached from start-up by a finite sequence of
`Engine_Initialize`, `Engine_GenerateSchedule`, `Engine_GetLastError` and
`Engine_Cleanup` calls, the last error is one of "", "Engine not
initialized", "Engine initialized successfully", "Schedule generated
successfully", and the engine is initialized if and only if the last error is
one of the two success messages. -/
theorem reachable_lastError_and_flag (calls : List Call) :
    ((run startup calls).g_lastError = "" ∨
        (run startup calls).g_lastError = "Engine not initialized" ∨
        (run startup calls).g_lastError = "Engine initialized successfully" ∨
        (run startup calls).g_lastError = "Schedule generated successfully") ∧
      ((run startup calls).g_initialized = true ↔
        ((run startup calls).g_lastError = "Engine initialized successfully" ∨
          (run startup calls).g_lastError = "Schedule generated successfully")) := by
  rcases consistent_run startup calls consistent_startup with ⟨hi, he | he⟩ | ⟨hi, he | he⟩
  · rw [hi, he]
    decide
  · rw [hi, he]
    decide
  · rw [hi, he]
    decide
  · rw [hi, he]
    decide

end SchoolScheduler
